import Mathlib

/-!
Verification of `native_versioning` (src/build_support.rs, src/versioned_extern.rs).

The build-time component (`build_support.rs`) is embedded as pure functions over
an explicit environment (`VersionEnv`, modelling the `CARGO_PKG_VERSION_*`
variables read by `std::env::var`), an explicit repository state (`Repo`,
modelling the `.git` directory probe and file reads performed by
`git_shorthash`), and an explicit I/O behaviour (`IoBehavior`, modelling the
outcomes of `fs::create_dir_all`, `File::create` and `write!` inside
`write_versioned_header`).  Rust strings in this code are ASCII in every case
the theorems touch, so byte indexing (`contents[..8]`, `contents[5..]`,
`contents.len()`) is modelled by character indexing (`String.take`,
`String.drop`, `String.length`).

The compile-time component (the `versioned_extern!` macro) is embedded as a
function over token trees (`Tok`), with one Lean match arm per `macro_rules`
arm, in the same order, including the final catch-all arm that passes
unrecognised input through unchanged.
-/

namespace NativeVersioning

/-- Kinds of `std::io::Error` that `build_support.rs` distinguishes. -/
inductive ErrorKind
  | notFound
  | invalidData
  | other
  deriving DecidableEq

/-- An `std::io::Error`: a kind plus a message. -/
structure IoErr where
  kind : ErrorKind
  msg : String
  deriving DecidableEq

/-- The `Error` enum of build_support.rs.  `envVar` models
`std::env::VarError` (the variable is unset); `fmt` models `std::fmt::Error`
(which `write!` into a `String` never actually produces). -/
inductive Error
  | io (e : IoErr)
  | envVar
  | fmt
  deriving DecidableEq

/-- The four `CARGO_PKG_VERSION_*` environment variables, `none` = unset. -/
structure VersionEnv where
  major : Option String
  minor : Option String
  patch : Option String
  pre : Option String
  deriving DecidableEq

instance instDecidableEqExcept {ε α : Type} [DecidableEq ε] [DecidableEq α] :
    DecidableEq (Except ε α) := fun a b =>
  match a, b with
  | Except.ok a, Except.ok b =>
    if h : a = b then isTrue (by simp [h]) else isFalse (by simp [h])
  | Except.error a, Except.error b =>
    if h : a = b then isTrue (by simp [h]) else isFalse (by simp [h])
  | Except.ok _, Except.error _ => isFalse (by simp)
  | Except.error _, Except.ok _ => isFalse (by simp)

/-- `std::env::var`: `Ok` the value when set, `Err(VarError)` when unset. -/
def env_var (v : Option String) : Except Error String :=
  match v with
  | some s => Except.ok s
  | none => Except.error Error.envVar

/-- Rust `s.len()`: the byte length (the strings the theorems touch are
ASCII, one byte per character). -/
def strLen (s : String) : Nat := s.data.length

/-- Rust `&s[..n]`: the first `n` bytes. -/
def strTake (s : String) (n : Nat) : String := String.mk (s.data.take n)

/-- Rust `&s[n..]`: the bytes from position `n` on. -/
def strDrop (s : String) (n : Nat) : String := String.mk (s.data.drop n)

/-- Rust `s.starts_with(p)`. -/
def strStartsWith (s p : String) : Bool := p.data.isPrefixOf s.data

/-- Rust `str::trim_right`: the string with trailing whitespace removed. -/
def strTrimRight (s : String) : String :=
  String.mk ((s.data.reverse.dropWhile Char.isWhitespace).reverse)

/-- Rust `s.is_empty()`. -/
def strIsEmpty (s : String) : Bool := s.data.isEmpty

/-- The repository state seen by `git_shorthash`: the outcome of
`fs::metadata(".git")`, of reading `.git/HEAD`, and of reading `.git/<p>`
for a relative ref path `p` (the argument of `refContent` is the path that
`git_base.join(...)` is applied to). -/
structure Repo where
  metadata : Except IoErr Unit
  headContent : Except IoErr String
  refContent : String → Except IoErr String

/-- `git_shorthash` of build_support.rs: probe `.git`; read `.git/HEAD`; if
the content starts with `"ref: "`, follow exactly one level of indirection by
reading the named ref file (path taken from byte 5 on, right-trimmed); then
require at least 8 characters and return the first 8. -/
def git_shorthash (repo : Repo) : Except IoErr (Option String) :=
  match repo.metadata with
  | Except.error e =>
    match e.kind with
    | ErrorKind.notFound => Except.ok none
    | _ => Except.error e
  | Except.ok _ =>
    match repo.headContent with
    | Except.error e => Except.error e
    | Except.ok head =>
      let step : Except IoErr String :=
        if strStartsWith head "ref: " then
          repo.refContent (strTrimRight (strDrop head 5))
        else
          Except.ok head
      match step with
      | Except.error e => Except.error e
      | Except.ok contents =>
        if strLen contents < 8 then
          Except.error ⟨ErrorKind.invalidData, "invalid git ref"⟩
        else
          Except.ok (some (strTake contents 8))

/-- `crate_version` of build_support.rs: `v<major>_<minor>_<patch>`, with
`_<pre>` appended only when the pre-release field is non-empty.  The `?` on
each `env::var` is an early return with `Error::EnvVar`. -/
def crate_version (env : VersionEnv) : Except Error String :=
  match env_var env.major with
  | Except.error e => Except.error e
  | Except.ok maj =>
    match env_var env.minor with
    | Except.error e => Except.error e
    | Except.ok minV =>
      match env_var env.patch with
      | Except.error e => Except.error e
      | Except.ok pat =>
        match env_var env.pre with
        | Except.error e => Except.error e
        | Except.ok pre =>
          let v := "v" ++ maj ++ "_" ++ minV ++ "_" ++ pat
          Except.ok (if strIsEmpty pre then v else v ++ "_" ++ pre)

/-- `version` of build_support.rs: the crate version, with `_<shorthash>`
appended when `git_shorthash` finds a repository. -/
def version (env : VersionEnv) (repo : Repo) : Except Error String :=
  match crate_version env with
  | Except.error e => Except.error e
  | Except.ok v =>
    match git_shorthash repo with
    | Except.error e => Except.error (Error.io e)
    | Except.ok none => Except.ok v
    | Except.ok (some h) => Except.ok (v ++ "_" ++ h)

/-- A working directory with no `.git` directory: `fs::metadata(".git")`
fails with `NotFound`, and no repository file can be read. -/
def noRepo : Repo where
  metadata := Except.error ⟨ErrorKind.notFound, "no such file"⟩
  headContent := Except.error ⟨ErrorKind.notFound, "no such file"⟩
  refContent := fun _ => Except.error ⟨ErrorKind.notFound, "no such file"⟩

/-- The outcomes of the three filesystem operations performed by
`write_versioned_header`, in program order. -/
structure IoBehavior where
  createDirAll : Except IoErr Unit
  createFile : Except IoErr Unit
  writeFile : Except IoErr Unit

/-- The observable effects of one `write_versioned_header` call: the returned
value, the header file's content when it was fully written, and the value of
the `cargo:rustc-env=NATIVE_VERSIONING_VERSION=...` line when it was printed. -/
structure EmitResult where
  result : Except Error String
  fileContent : Option String
  published : Option String

/-- `write_versioned_header` of build_support.rs, in program order: join the
path, compute `version()`, `create_dir_all`, `File::create`, `write!` the
single `#define` line, and only then print the `cargo:rustc-env` publication
line and return the joined path.  Each `?` is an early return, so a failure
at any step leaves every later effect unperformed. -/
def write_versioned_header (env : VersionEnv) (repo : Repo) (io_ : IoBehavior)
    (include_dir header_filename macro_name : String) : EmitResult :=
  let versioned_h := include_dir ++ "/" ++ header_filename
  match version env repo with
  | Except.error e => ⟨Except.error e, none, none⟩
  | Except.ok v =>
    match io_.createDirAll with
    | Except.error e => ⟨Except.error (Error.io e), none, none⟩
    | Except.ok _ =>
      match io_.createFile with
      | Except.error e => ⟨Except.error (Error.io e), none, none⟩
      | Except.ok _ =>
        match io_.writeFile with
        | Except.error e => ⟨Except.error (Error.io e), none, none⟩
        | Except.ok _ =>
          ⟨Except.ok versioned_h,
           some ("#define " ++ macro_name ++ "(sym) sym ## _" ++ v ++ "\n"),
           some v⟩

/-- A Rust token tree as seen by the `versioned_extern!` `macro_rules`
matcher.  `ty` stands for one captured `$T:path` / `$T:ty` nonterminal
(types are opaque to the macro); `linkExpr s` stands for the `concat!(...)`
expression computed by the accumulation arm, whose value is the string `s`;
`other` stands for any further opaque token (`=`, a literal, ...). -/
inductive Tok
  | kwFn
  | kwStatic
  | kwPub
  | semi
  | colon
  | arrow
  | pound
  | ident (s : String)
  | ty (s : String)
  | linkExpr (s : String)
  | other (s : String)
  | brack (ts : List Tok)
  | paren (ts : List Tok)

/-- One item of the emitted `extern` block: `#[link_name = linkName] pre name
post`. -/
structure ExternItem where
  linkName : String
  pre : List Tok
  name : String
  post : List Tok

/-- The possible expansions of one `versioned_extern!` invocation: an
`extern { ... }` block of link-renamed declarations, nothing (the `()` arm),
or the catch-all arm that emits its input tokens unchanged. -/
inductive Output
  | externBlock (items : List ExternItem)
  | empty
  | passthrough (ts : List Tok)

/-- The parenthesised accumulator group `([$pre] $name [$post])` that the
munching arms append behind the remaining input. -/
def entryGroup (pre : List Tok) (name : String) (post : List Tok) : Tok :=
  Tok.paren [Tok.brack pre, Tok.ident name, Tok.brack post]

/-- Matcher for one accumulator group, as required by the arm
`$(([$($pre:tt)+] $name:ident [$($post:tt)+]))+` (both bracket groups
non-empty). -/
def asEntry (t : Tok) : Option (List Tok × String × List Tok) :=
  match t with
  | Tok.paren [Tok.brack pre, Tok.ident n, Tok.brack post] =>
    if pre.isEmpty || post.isEmpty then none else some (pre, n, post)
  | _ => none

/-- Matcher for the whole accumulator-arm pattern: every token tree of the
input is one accumulator group. -/
def asEntries (ts : List Tok) : Option (List (List Tok × String × List Tok)) :=
  match ts with
  | [] => some []
  | t :: ts =>
    match asEntry t, asEntries ts with
    | some e, some es => some (e :: es)
    | _, _ => none

/-- Matcher for the emission-arm pattern
`$([$v:expr] [$($pre:tt)+] $name:ident [$($post:tt)+])+`: a flat sequence of
quadruples, each led by a bracketed link-name expression. -/
def asTagged (ts : List Tok) : Option (List (String × List Tok × String × List Tok)) :=
  match ts with
  | [] => some []
  | Tok.brack [Tok.linkExpr v] :: Tok.brack pre :: Tok.ident n :: Tok.brack post :: ts =>
    if pre.isEmpty || post.isEmpty then none
    else
      match asTagged ts with
      | some es => some ((v, pre, n, post) :: es)
      | none => none
  | _ => none

/-- The four terminal arms of `versioned_extern!`, tried in source order once
no munching arm matches: the accumulator arm composed with the emission arm
(the accumulator arm's expansion always matches the emission arm, with the
link name computed by `concat!` via `mangle`), the emission arm on direct
input, the empty arm `() => ()`, and the catch-all `($($rest:tt)*) =>
($($rest)*)`. -/
def finishPhase (mangle : String → String) (ts : List Tok) : Output :=
  match asEntries ts with
  | some es =>
    if ts.isEmpty then
      Output.empty
    else
      Output.externBlock (es.map fun e => ⟨mangle e.2.1, e.1, e.2.1, e.2.2⟩)
  | none =>
    match asTagged ts with
    | some es => Output.externBlock (es.map fun e => ⟨e.1, e.2.1, e.2.2.1, e.2.2.2⟩)
    | none => Output.passthrough ts

/-- Whether a token is the bare `fn` keyword.  The first two munching arms
replace a top-level `fn` by the bracket group `[fn]` without shortening the
batch, so the termination measure of `munch` counts top-level `fn` tokens. -/
def isKwFn (t : Tok) : Bool :=
  match t with
  | Tok.kwFn => true
  | _ => false

/-- The `versioned_extern!` muncher: one match arm per `macro_rules` arm, in
source order.  The four declaration arms peel one declaration off the front
and append its accumulator group behind the remaining input; the `[pre]`
bracket of the middle arms must be non-empty (`$($pre:tt)+`), otherwise the
arm does not match and control falls through to the terminal arms. -/
def munch (mangle : String → String) (ts : List Tok) : Output :=
  match ts with
  | Tok.kwFn :: r :: rest =>
    munch mangle (Tok.brack [Tok.kwFn] :: r :: rest)
  | Tok.kwPub :: Tok.kwFn :: r :: rest =>
    munch mangle (Tok.brack [Tok.kwPub, Tok.kwFn] :: r :: rest)
  | Tok.kwPub :: Tok.kwStatic :: Tok.ident n :: Tok.colon :: Tok.ty T :: Tok.semi :: rest =>
    munch mangle
      (rest ++ [entryGroup [Tok.kwPub, Tok.kwStatic] n [Tok.colon, Tok.ty T, Tok.semi]])
  | Tok.kwStatic :: Tok.ident n :: Tok.colon :: Tok.ty T :: Tok.semi :: rest =>
    munch mangle (rest ++ [entryGroup [Tok.kwStatic] n [Tok.colon, Tok.ty T, Tok.semi]])
  | Tok.brack pre :: Tok.ident n :: Tok.paren args :: Tok.semi :: rest =>
    if pre.isEmpty then
      finishPhase mangle (Tok.brack pre :: Tok.ident n :: Tok.paren args :: Tok.semi :: rest)
    else
      munch mangle (rest ++ [entryGroup pre n [Tok.paren args, Tok.semi]])
  | Tok.brack pre :: Tok.ident n :: Tok.paren args :: Tok.arrow :: Tok.ty T :: Tok.semi :: rest =>
    if pre.isEmpty then
      finishPhase mangle
        (Tok.brack pre :: Tok.ident n :: Tok.paren args :: Tok.arrow :: Tok.ty T :: Tok.semi :: rest)
    else
      munch mangle (rest ++ [entryGroup pre n [Tok.paren args, Tok.arrow, Tok.ty T, Tok.semi]])
  | ts => finishPhase mangle ts
termination_by 2 * ts.length + List.countP isKwFn ts
decreasing_by
  all_goals simp [isKwFn, entryGroup, List.countP_append, List.countP_cons]
  all_goals omega

/-- The link-name `concat!` of the accumulation arm:
`stringify!($name), "_v", MAJOR, "_", MINOR, "_", PATCH, "_", PRE` — note the
unconditional `"_"` before the (possibly empty) pre-release and the absence
of any revision marker. -/
def concatLinkName (maj minV pat pre name : String) : String :=
  name ++ "_v" ++ maj ++ "_" ++ minV ++ "_" ++ pat ++ "_" ++ pre

/-- The `versioned_extern!` macro over a token batch, in a host environment
whose `CARGO_PKG_VERSION_{MAJOR,MINOR,PATCH,PRE}` variables (read by `env!`
at expansion time) hold the four given strings. -/
def versioned_extern (maj minV pat pre : String) (ts : List Tok) : Output :=
  munch (concatLinkName maj minV pat pre) ts

/-- The version environment of a build of crate version `1.2.3` with no
pre-release label: what cargo sets for a `version = "1.2.3"` manifest. -/
def env123 : VersionEnv := ⟨some "1", some "2", some "3", some ""⟩

/-- An `IoBehavior` in which every filesystem operation succeeds. -/
def okIo : IoBehavior := ⟨Except.ok (), Except.ok (), Except.ok ()⟩

/-- A repository whose `HEAD` is a symbolic reference to `refs/heads/master`,
a ref file whose own content again looks like a symbolic reference — so a
resolver that followed more than one level would diverge from one that
follows exactly one. -/
def symRepo : Repo where
  metadata := Except.ok ()
  headContent := Except.ok "ref: refs/heads/master\n"
  refContent := fun p =>
    if p = "refs/heads/master" then Except.ok "ref: refs/heads/other"
    else Except.error ⟨ErrorKind.notFound, "no such file"⟩

/-- A repository whose detached `HEAD` holds fewer than 8 characters. -/
def shortRepo : Repo where
  metadata := Except.ok ()
  headContent := Except.ok "short"
  refContent := fun _ => Except.error ⟨ErrorKind.notFound, "no such file"⟩

/-- A repository whose detached `HEAD` holds a 7-character revision string
followed by a newline: 8 bytes in all, the last one whitespace. -/
def newlineRepo : Repo where
  metadata := Except.ok ()
  headContent := Except.ok "abcdefg\n"
  refContent := fun _ => Except.error ⟨ErrorKind.notFound, "no such file"⟩

/-- The declaration batch of tests/versioned_extern.rs, token for token:
a module-private static, a public static, a function declaration carrying
the attributes `#[cfg(test)]` and `#[doc = "hi"]`, and a public function. -/
def testBatch : List Tok :=
  [Tok.kwStatic, Tok.ident "demo", Tok.colon, Tok.ty "c::long", Tok.semi,
   Tok.kwPub, Tok.kwStatic, Tok.ident "demo2", Tok.colon, Tok.ty "usize", Tok.semi,
   Tok.pound, Tok.brack [Tok.ident "cfg", Tok.paren [Tok.ident "test"]],
   Tok.pound, Tok.brack [Tok.ident "doc", Tok.other "=", Tok.other "\"hi\""],
   Tok.kwFn, Tok.ident "f", Tok.paren [], Tok.arrow, Tok.ty "usize", Tok.semi,
   Tok.kwPub, Tok.kwFn, Tok.ident "g", Tok.paren [], Tok.semi]

/-- Bridge between the embedded Rust `is_empty` and propositional emptiness. -/
theorem strIsEmpty_iff (s : String) : strIsEmpty s = true ↔ s = "" := by
  cases s with
  | mk data =>
    simp only [strIsEmpty, List.isEmpty_iff]
    constructor
    · intro h
      subst h
      rfl
    · intro h
      rw [show ("" : String) = ⟨[]⟩ from rfl] at h
      exact congrArg String.data h

/-- C2: for all non-negative integer-literal major, minor and patch fields
and any pre-release string, resolving the version without a repository
yields exactly `v<major>_<minor>_<patch>`, with `_<pre>` appended iff the
pre-release string is non-empty (an empty pre-release contributes no
separator segment), and no revision-marker suffix. -/
theorem resolve_without_repo_tag (m n p : Nat) (pre : String) :
    version ⟨some (toString m), some (toString n), some (toString p), some pre⟩ noRepo
      = Except.ok ("v" ++ toString m ++ "_" ++ toString n ++ "_" ++ toString p
          ++ (if pre = "" then "" else "_" ++ pre)) := by
  by_cases hp : pre = ""
  · subst hp
    simp [version, crate_version, env_var, git_shorthash, noRepo, strIsEmpty]
  · have hfalse : strIsEmpty pre = false := by
      rw [← Bool.not_eq_true, strIsEmpty_iff]
      exact hp
    simp [version, crate_version, env_var, git_shorthash, noRepo, hfalse, hp,
      String.append_assoc]

/-- C5 counterexample: with the non-numeric major field `"abc"`, version
resolution does not fail — it returns the tag `vabc_0_0` containing the
malformed field (no `MalformedVersionField` error exists in the code). -/
theorem malformed_field_not_rejected :
    version ⟨some "abc", some "0", some "0", some ""⟩ noRepo = Except.ok "vabc_0_0" := by
  decide

/-- C5 amended: version resolution performs no validation of the
major/minor/patch fields — any present string values are interpolated into
the tag verbatim, and resolution succeeds regardless of their content; the
only field-related failure is a missing environment variable. -/
theorem resolve_interpolates_fields_verbatim (maj minV pat pre : String) :
    version ⟨some maj, some minV, some pat, some pre⟩ noRepo
      = Except.ok ("v" ++ maj ++ "_" ++ minV ++ "_" ++ pat
          ++ (if pre = "" then "" else "_" ++ pre)) := by
  by_cases hp : pre = ""
  · subst hp
    simp [version, crate_version, env_var, git_shorthash, noRepo, strIsEmpty]
  · have hfalse : strIsEmpty pre = false := by
      rw [← Bool.not_eq_true, strIsEmpty_iff]
      exact hp
    simp [version, crate_version, env_var, git_shorthash, noRepo, hfalse, hp,
      String.append_assoc]

/-- C3: with a repository present, resolution reads `HEAD`; if `HEAD` is a
symbolic reference it follows exactly one level of indirection — the result
is the first 8 characters of the target ref file's content, whatever that
content is, so a reference found there is not followed further; if `HEAD` is
not symbolic, the marker is the first 8 characters of `HEAD` itself. -/
theorem resolve_follows_one_indirection (repo : Repo) (head target : String)
    (hmeta : repo.metadata = Except.ok ())
    (hhead : repo.headContent = Except.ok head) :
    (strStartsWith head "ref: " = true →
      repo.refContent (strTrimRight (strDrop head 5)) = Except.ok target →
      8 ≤ strLen target →
      git_shorthash repo = Except.ok (some (strTake target 8))) ∧
    (strStartsWith head "ref: " = false →
      8 ≤ strLen head →
      git_shorthash repo = Except.ok (some (strTake head 8))) := by
  constructor
  · intro hsym htgt hlen
    have hlt : ¬ strLen target < 8 := by omega
    simp [git_shorthash, hmeta, hhead, hsym, htgt, hlt]
  · intro hsym hlen
    have hlt : ¬ strLen head < 8 := by omega
    simp [git_shorthash, hmeta, hhead, hsym, hlt]

/-- C3 witness: on `symRepo`, whose `HEAD` points at a ref file whose own
content is again `"ref: refs/heads/other"`, the marker is the first 8
characters of that content — the second-level reference is not followed. -/
theorem resolve_follows_one_indirection_witness :
    git_shorthash symRepo = Except.ok (some "ref: ref") := by
  have h := (resolve_follows_one_indirection symRepo "ref: refs/heads/master\n"
    "ref: refs/heads/other" rfl rfl).1 (by decide) (by decide) (by decide)
  rw [h]
  decide

/-- C4: resolution fails with the invalid-data error (the code's rendering
of `InvalidRepositoryState`) when a repository is present but the resolved
ref content — direct or after one indirection — has fewer than 8
characters; whereas when the `.git` metadata directory is absent, resolution
succeeds with no revision marker, the assembled tag being exactly the crate
version. -/
theorem short_ref_fails_missing_repo_succeeds (repo : Repo) (env : VersionEnv)
    (head target msg : String) :
    (repo.metadata = Except.ok () → repo.headContent = Except.ok head →
      strStartsWith head "ref: " = false → strLen head < 8 →
      git_shorthash repo = Except.error ⟨ErrorKind.invalidData, "invalid git ref"⟩) ∧
    (repo.metadata = Except.ok () → repo.headContent = Except.ok head →
      strStartsWith head "ref: " = true →
      repo.refContent (strTrimRight (strDrop head 5)) = Except.ok target →
      strLen target < 8 →
      git_shorthash repo = Except.error ⟨ErrorKind.invalidData, "invalid git ref"⟩) ∧
    (repo.metadata = Except.error ⟨ErrorKind.notFound, msg⟩ →
      git_shorthash repo = Except.ok none ∧ version env repo = crate_version env) := by
  refine ⟨?_, ?_, ?_⟩
  · intro hmeta hhead hsym hlen
    simp [git_shorthash, hmeta, hhead, hsym, hlen]
  · intro hmeta hhead hsym htgt hlen
    simp [git_shorthash, hmeta, hhead, hsym, htgt, hlen]
  · intro hmeta
    have hg : git_shorthash repo = Except.ok none := by
      simp [git_shorthash, hmeta]
    refine ⟨hg, ?_⟩
    cases hcv : crate_version env <;> simp [version, hcv, hg]

/-- C4 witness: the 5-character detached `HEAD` of `shortRepo` is rejected
as invalid data, while a tree with no `.git` directory resolves to the bare
crate version `v1_2_3`. -/
theorem short_ref_fails_missing_repo_succeeds_witness :
    git_shorthash shortRepo = Except.error ⟨ErrorKind.invalidData, "invalid git ref"⟩ ∧
    git_shorthash noRepo = Except.ok none ∧
    version env123 noRepo = crate_version env123 := by
  have h1 := (short_ref_fails_missing_repo_succeeds shortRepo env123 "short" "" "").1
    rfl rfl (by decide) (by decide)
  have h2 := (short_ref_fails_missing_repo_succeeds noRepo env123 "" "" "no such file").2.2
    rfl
  exact ⟨h1, h2.1, h2.2⟩

/-- C10: the revision content is sliced by raw length without trimming:
for a detached `HEAD` of 8 or more bytes, resolution succeeds and the
marker is the first 8 bytes verbatim, whitespace included, and the
assembled tag is the crate version followed by `_` and that marker. -/
theorem revision_sliced_without_trimming (repo : Repo) (env : VersionEnv)
    (head tagBase : String)
    (hmeta : repo.metadata = Except.ok ())
    (hhead : repo.headContent = Except.ok head)
    (hsym : strStartsWith head "ref: " = false)
    (hlen : 8 ≤ strLen head)
    (hcv : crate_version env = Except.ok tagBase) :
    git_shorthash repo = Except.ok (some (strTake head 8)) ∧
    version env repo = Except.ok (tagBase ++ "_" ++ strTake head 8) := by
  have hlt : ¬ strLen head < 8 := by omega
  have hg : git_shorthash repo = Except.ok (some (strTake head 8)) := by
    simp [git_shorthash, hmeta, hhead, hsym, hlt]
  exact ⟨hg, by simp [version, hcv, hg]⟩

/-- C10 witness: `HEAD` content `"abcdefg\n"` (7 revision characters plus a
newline, 8 bytes) resolves to the marker `"abcdefg\n"`, and the tag
`"v1_2_3_abcdefg\n"` contains the newline — a character that is neither
alphanumeric nor an underscore, violating the identifier-suffix invariant. -/
theorem revision_sliced_without_trimming_witness :
    git_shorthash newlineRepo = Except.ok (some "abcdefg\n") ∧
    version env123 newlineRepo = Except.ok "v1_2_3_abcdefg\n" ∧
    '\n' ∈ "v1_2_3_abcdefg\n".data ∧ ('\n'.isAlphanum || '\n' == '_') = false := by
  have h := revision_sliced_without_trimming newlineRepo env123 "abcdefg\n" "v1_2_3"
    rfl rfl (by decide) (by decide) (by decide)
  refine ⟨?_, ?_, by decide, by decide⟩
  · rw [h.1]
    decide
  · rw [h.2]
    decide

/-- C6: every successful header-emitter call with macro name `M` and
computed tag `T` writes exactly the single line `#define M(sym) sym ## _T`
(the part before the terminating newline contains no further newline when
`M` and `T` do not), and returns the joined path `includeDir/headerFileName`. -/
theorem header_is_single_define_line (env : VersionEnv) (repo : Repo) (io_ : IoBehavior)
    (dir file macroName tag : String)
    (hv : version env repo = Except.ok tag)
    (hdir : io_.createDirAll = Except.ok ())
    (hfile : io_.createFile = Except.ok ())
    (hwrite : io_.writeFile = Except.ok ())
    (htag : tag.data.count '\n' = 0)
    (hmac : macroName.data.count '\n' = 0) :
    (write_versioned_header env repo io_ dir file macroName).result
      = Except.ok (dir ++ "/" ++ file) ∧
    (write_versioned_header env repo io_ dir file macroName).fileContent
      = some ("#define " ++ macroName ++ "(sym) sym ## _" ++ tag ++ "\n") ∧
    ("#define " ++ macroName ++ "(sym) sym ## _" ++ tag).data.count '\n' = 0 := by
  have h1 : "#define ".data.count '\n' = 0 := by decide
  have h2 : "(sym) sym ## _".data.count '\n' = 0 := by decide
  refine ⟨?_, ?_, ?_⟩ <;>
    simp [write_versioned_header, hv, hdir, hfile, hwrite, String.data_append,
      List.count_append, htag, hmac, h1, h2]

/-- C6 witness: emitting with macro name `VERSIONED` into `inc/versioned.h`
for the tag `v1_2_3` writes `#define VERSIONED(sym) sym ## _v1_2_3` plus a
newline and returns the path `inc/versioned.h`. -/
theorem header_is_single_define_line_witness :
    (write_versioned_header env123 noRepo okIo "inc" "versioned.h" "VERSIONED").result
      = Except.ok "inc/versioned.h" ∧
    (write_versioned_header env123 noRepo okIo "inc" "versioned.h" "VERSIONED").fileContent
      = some "#define VERSIONED(sym) sym ## _v1_2_3\n" := by
  have h := header_is_single_define_line env123 noRepo okIo "inc" "versioned.h" "VERSIONED"
    "v1_2_3" (by decide) rfl rfl rfl (by decide) (by decide)
  constructor
  · rw [h.1]
    decide
  · rw [h.2.1]
    decide

/-- C9: the `cargo:rustc-env` publication line is printed iff the header
file was fully written — the tag is published exactly when tag computation,
directory creation, file creation and the write all succeeded, and the
published value is then the computed tag, the written content being the
`#define` line for that same tag. -/
theorem tag_published_iff_header_written (env : VersionEnv) (repo : Repo)
    (io_ : IoBehavior) (dir file macroName : String) :
    ((write_versioned_header env repo io_ dir file macroName).published.isSome
        ↔ (write_versioned_header env repo io_ dir file macroName).fileContent.isSome) ∧
    ((write_versioned_header env repo io_ dir file macroName).published.isSome
        ↔ (∃ t, version env repo = Except.ok t) ∧ io_.createDirAll = Except.ok ()
            ∧ io_.createFile = Except.ok () ∧ io_.writeFile = Except.ok ()) ∧
    (∀ t, (write_versioned_header env repo io_ dir file macroName).published = some t →
        version env repo = Except.ok t ∧
        (write_versioned_header env repo io_ dir file macroName).fileContent
          = some ("#define " ++ macroName ++ "(sym) sym ## _" ++ t ++ "\n")) := by
  cases hv : version env repo <;>
    cases hd : io_.createDirAll <;>
      cases hc : io_.createFile <;>
        cases hw : io_.writeFile <;>
          simp [write_versioned_header, hv, hd, hc, hw]

/-- C1: at crate version 1.2.3 with an empty pre-release and no repository,
the emitter publishes the tag `v1_2_3`, but the rewriter — which recomputes
the tag from the `CARGO_PKG_VERSION_*` variables via `env!` instead of
reading the published `NATIVE_VERSIONING_VERSION` value — mangles `fn f();`
to the link name `f_v1_2_3_` (unconditional pre-release separator, no
revision marker), which differs from `f_` followed by the published tag. -/
theorem link_name_diverges_from_published_tag :
    (write_versioned_header env123 noRepo okIo "include" "versioned.h" "VERSIONED").published
      = some "v1_2_3" ∧
    versioned_extern "1" "2" "3" "" [Tok.kwFn, Tok.ident "f", Tok.paren [], Tok.semi]
      = Output.externBlock [⟨"f_v1_2_3_", [Tok.kwFn], "f", [Tok.paren [], Tok.semi]⟩] ∧
    ("f_v1_2_3_" == "f" ++ "_" ++ "v1_2_3") = false := by
  refine ⟨by decide, ?_, by decide⟩
  simp [ versioned_extern, munch, finishPhase, asEntries, asEntry, entryGroup, concatLinkName]

/-- C7: on the declaration batch of the crate's own test file — whose third
declaration carries the attributes `#[cfg(test)]` and `#[doc = "hi"]` — the
rewriter produces no rewritten declarations at all: no arm of the macro
matches an attribute, so once the muncher reaches the `#` token the whole
remaining stream, the two already-accumulated groups included, falls through
the catch-all arm and is emitted as raw tokens, with no link name attached
to any symbol. -/
theorem attributes_fall_through_unrewritten :
    versioned_extern "1" "2" "3" "" testBatch
      = Output.passthrough
          [Tok.pound, Tok.brack [Tok.ident "cfg", Tok.paren [Tok.ident "test"]],
           Tok.pound, Tok.brack [Tok.ident "doc", Tok.other "=", Tok.other "\"hi\""],
           Tok.kwFn, Tok.ident "f", Tok.paren [], Tok.arrow, Tok.ty "usize", Tok.semi,
           Tok.kwPub, Tok.kwFn, Tok.ident "g", Tok.paren [], Tok.semi,
           entryGroup [Tok.kwStatic] "demo" [Tok.colon, Tok.ty "c::long", Tok.semi],
           entryGroup [Tok.kwPub, Tok.kwStatic] "demo2" [Tok.colon, Tok.ty "usize", Tok.semi]] := by
  simp [ versioned_extern, munch, finishPhase, asEntries, asEntry, asTagged, entryGroup,
    testBatch]

/-- C8: the rewriter is deterministic — two runs on equal batches in equal
host environments produce equal output. -/
theorem rewriter_deterministic (majA minA patA preA majB minB patB preB : String)
    (b1 b2 : List Tok)
    (hmaj : majA = majB) (hmin : minA = minB) (hpat : patA = patB)
    (hpre : preA = preB) (hb : b1 = b2) :
    versioned_extern majA minA patA preA b1 = versioned_extern majB minB patB preB b2 := by
  subst hmaj hmin hpat hpre hb
  rfl

/-- C8 witness: two runs on the batch `fn f();` at version 1.2.3-beta
yield the same output. -/
theorem rewriter_deterministic_witness :
    versioned_extern "1" "2" "3" "beta" [Tok.kwFn, Tok.ident "f", Tok.paren [], Tok.semi]
      = versioned_extern "1" "2" "3" "beta" [Tok.kwFn, Tok.ident "f", Tok.paren [], Tok.semi] :=
  rewriter_deterministic "1" "2" "3" "beta" "1" "2" "3" "beta" _ _ rfl rfl rfl rfl rfl

end NativeVersioning
